import Mathlib

/-!
Verification of the dimension-adapting sliding-window inference wrapper
`YourSlidingWindowInferer` from the tutorial notebook `2d_inference_3d_volume.ipynb`.

The embedding models:
  * tensors as a shape (list of extents, axes ordered batch, channel, spatial...)
    together with flat data (torch `squeeze`/`unsqueeze` leave flat contiguous
    data unchanged and only edit the shape);
  * Python list primitives `list.insert` and subscripting with a possibly
    negative index;
  * torch `Tensor.squeeze(dim)` / `Tensor.unsqueeze(dim)` with a possibly
    negative `dim` and their range checks;
  * Python exceptions via `Except PyError`: `AssertionError` (the spec's
    `InvalidConfiguration`), `RuntimeError` (the spec's `UnsupportedShape`),
    `IndexError`, and opaque errors raised by the model callable or the
    external sliding-window primitive;
  * the external `SlidingWindowInferer.__call__` of the superclass as an opaque
    function parameter (`Primitive`) receiving the configuration it reads from
    the instance (`roi_size`, `sw_batch_size`, `cval`), the input volume and
    the adapted network callable;
  * the mutation of `self.roi_size` performed by `__call__` by returning the
    updated instance alongside the result.
-/

namespace SW

/-- A torch tensor: a shape plus flat contiguous data.  Only the shape matters
to the wrapper's bookkeeping; the data rides along untouched by
`squeeze`/`unsqueeze`. -/
structure Tensor where
  shape : List Nat
  data : List Int
  deriving DecidableEq, Repr

/-- Python exceptions that can surface from the wrapper or its collaborators.
`assertionError` is the spec's `InvalidConfiguration`; `runtimeError` is the
spec's `UnsupportedShape`; `external c` stands for an arbitrary error raised by
the model callable or by the external sliding-window primitive. -/
inductive PyError where
  | assertionError
  | runtimeError
  | indexError
  | external (code : Nat)
  deriving DecidableEq, Repr

/-- Insertion of an element at a (clamped) nonnegative position, as Python
`list.insert` does after index normalisation: past-the-end indices append. -/
def listInsertIdx : List Nat → Nat → Nat → List Nat
  | l, 0, x => x :: l
  | [], _ + 1, x => [x]
  | a :: l, j + 1, x => a :: listInsertIdx l j x

/-- Python `l.insert(i, x)`: a negative `i` counts from the end and is clamped
to 0; a positive `i` is clamped to `len(l)`. -/
def pyInsert (l : List Nat) (i : Int) (x : Nat) : List Nat :=
  let n : Int := l.length
  let j : Int := if i < 0 then max 0 (n + i) else min i n
  listInsertIdx l j.toNat x

/-- Python `l[i]`: a negative `i` counts from the end; out-of-range raises
`IndexError`. -/
def pyGet (l : List Nat) (i : Int) : Except PyError Nat :=
  let j : Int := if i < 0 then i + l.length else i
  if j < 0 then .error .indexError
  else
    match l.get? j.toNat with
    | some v => .ok v
    | none => .error .indexError

/-- torch `x.squeeze(dim=d)`: `d` may be negative (counted from the end); an
out-of-range `d` raises; the axis is removed only when its extent is 1,
otherwise the tensor is returned unchanged.  Flat data is untouched. -/
def Tensor.squeeze (t : Tensor) (dim : Int) : Except PyError Tensor :=
  let n : Int := t.shape.length
  if dim < -n ∨ n ≤ dim then .error .indexError
  else
    let d : Nat := (if dim < 0 then dim + n else dim).toNat
    if t.shape.get? d = some 1 then .ok ⟨t.shape.eraseIdx d, t.data⟩
    else .ok t

/-- torch `x.unsqueeze(dim=d)`: `d` may be negative; an out-of-range `d`
raises; a size-1 axis is inserted at position `d`.  Flat data is untouched. -/
def Tensor.unsqueeze (t : Tensor) (dim : Int) : Except PyError Tensor :=
  let n : Int := t.shape.length
  if dim < -(n + 1) ∨ n + 1 ≤ dim then .error .indexError
  else
    let d : Nat := (if dim < 0 then dim + n + 1 else dim).toNat
    .ok ⟨listInsertIdx t.shape d 1, t.data⟩

/-- The model callable: a tensor plus extra (positional/keyword) arguments to a
tensor, possibly raising. -/
abbrev Network := Tensor → List Int → Except PyError Tensor

/-- The external sliding-window primitive (the superclass
`SlidingWindowInferer.__call__`), opaque to this component.  It receives the
configuration the superclass reads from the instance — `roi_size`,
`sw_batch_size`, `cval` — together with the input volume and the adapted
network callable. -/
abbrev Primitive :=
  List Nat → Nat → Int → Tensor → (Tensor → Except PyError Tensor) →
    Except PyError Tensor

/-- The wrapper instance: `spatial_dim` is the slice axis fixed at
construction, `roi_size` the stored (mutable) ROI size, `sw_batch_size` and
`cval` pass-through configuration for the superclass. -/
structure YourSlidingWindowInferer where
  spatial_dim : Int
  roi_size : List Nat
  sw_batch_size : Nat
  cval : Int
  deriving DecidableEq, Repr

/-- `YourSlidingWindowInferer.network_wrapper(self, network, x, *args, **kwargs)`:
if `self.roi_size[self.spatial_dim] == 1` the tile is squeezed at axis
`self.spatial_dim + 2`, the model invoked, and the output unsqueezed at the
same axis; otherwise the tile is passed through unchanged. -/
def network_wrapper (self : YourSlidingWindowInferer) (network : Network)
    (x : Tensor) (extra : List Int) : Except PyError Tensor :=
  match pyGet self.roi_size self.spatial_dim with
  | .error e => .error e
  | .ok v =>
    if v = 1 then
      match x.squeeze (self.spatial_dim + 2) with
      | .error e => .error e
      | .ok x2 =>
        match network x2 extra with
        | .error e => .error e
        | .ok out => out.unsqueeze (self.spatial_dim + 2)
    else
      network x extra

/-- `YourSlidingWindowInferer.__call__(self, inputs, network, slice_axis=0,
*args, **kwargs)` — the spec's `infer` operation.  It asserts
`self.spatial_dim < 3`; normalises a rank-2 `roi_size` against a
rank-mismatched input by inserting a 1 at `self.spatial_dim` (mutating
`self.roi_size`, returned here as the second component); raises `RuntimeError`
for any other rank mismatch; and otherwise delegates to the superclass
primitive with the adapted network.  The per-call `slice_axis` parameter and
the extra arguments are never read. -/
def call (prim : Primitive) (self : YourSlidingWindowInferer) (inputs : Tensor)
    (network : Network) (slice_axis : Int) (extra : List Int) :
    Except PyError Tensor × YourSlidingWindowInferer :=
  if self.spatial_dim < 3 then
    if self.roi_size.length ≠ (inputs.shape.drop 2).length then
      if self.roi_size.length = 2 then
        let self' : YourSlidingWindowInferer :=
          { self with roi_size := pyInsert self.roi_size self.spatial_dim 1 }
        (prim self'.roi_size self'.sw_batch_size self'.cval inputs
          (fun x => network_wrapper self' network x []), self')
      else
        (.error .runtimeError, self)
    else
      (prim self.roi_size self.sw_batch_size self.cval inputs
        (fun x => network_wrapper self network x []), self)
  else
    (.error .assertionError, self)

/-- A concrete primitive that invokes the adapted network once on the whole
volume and returns its result, used to exercise error propagation. -/
def propPrim : Primitive := fun _ _ _ x f => f x

/-- A concrete model callable that always raises. -/
def failNet : Network := fun _ _ => .error (.external 7)

/-- Inserting always grows the list by exactly one element. -/
theorem listInsertIdx_length (j : Nat) (l : List Nat) (x : Nat) :
    (listInsertIdx l j x).length = l.length + 1 := by
  induction j generalizing l with
  | zero => simp [listInsertIdx]
  | succ j ih =>
    cases l with
    | nil => simp [listInsertIdx]
    | cons a l => simp [listInsertIdx, ih]

/-- Python `insert` always grows the list by exactly one element. -/
theorem pyInsert_length (l : List Nat) (i : Int) (x : Nat) :
    (pyInsert l i x).length = l.length + 1 := by
  simp [pyInsert, listInsertIdx_length]

/-- A list of length five is a five-element literal. -/
theorem shape_eq_of_length_five {l : List Nat} (h : l.length = 5) :
    ∃ a b c d e, l = [a, b, c, d, e] := by
  rcases l with _ | ⟨a, l⟩
  · simp at h
  rcases l with _ | ⟨b, l⟩
  · simp at h
  rcases l with _ | ⟨c, l⟩
  · simp at h
  rcases l with _ | ⟨d, l⟩
  · simp at h
  rcases l with _ | ⟨e, l⟩
  · simp at h
  rcases l with _ | ⟨f, l⟩
  · exact ⟨a, b, c, d, e, rfl⟩
  · simp at h

/-- The adapter returns the model's error verbatim: whether the tile is passed
through unchanged or squeezed first, an error from the model callable becomes
the adapter's result with no recovery. -/
theorem network_wrapper_error_prop (self : YourSlidingWindowInferer)
    (network : Network) :
    (∀ x v e, pyGet self.roi_size self.spatial_dim = .ok v → v ≠ 1 →
      network x [] = .error e → network_wrapper self network x [] = .error e) ∧
    (∀ x x2 e, pyGet self.roi_size self.spatial_dim = .ok 1 →
      x.squeeze (self.spatial_dim + 2) = .ok x2 →
      network x2 [] = .error e → network_wrapper self network x [] = .error e) := by
  constructor
  · intro x v e hget hv hnet
    simp [network_wrapper, hget, hv, hnet]
  · intro x x2 e hget hsq hnet
    simp [network_wrapper, hget, hsq, hnet]

end SW

/-- C9: the per-call `slice_axis` parameter accepted by `__call__` (distinct
from the construction-time `spatial_dim`) is never read by the body: two calls
that differ only in it return identical results (output or error) and identical
updated state. -/
theorem C9_per_call_slice_axis_unused (prim : SW.Primitive)
    (self : SW.YourSlidingWindowInferer) (inputs : SW.Tensor)
    (network : SW.Network) (sa1 sa2 : Int) (extra : List Int) :
    SW.call prim self inputs network sa1 extra
      = SW.call prim self inputs network sa2 extra := rfl

/-- C10: the extra positional/keyword arguments of `__call__` are silently
discarded: the body forwards them neither to the external primitive (which is
invoked on `inputs` and the adapter only) nor to the model (the adapter lambda
passes an empty extra-argument list), so two calls differing only in the extra
arguments produce identical results and state. -/
theorem C10_extra_args_discarded (prim : SW.Primitive)
    (self : SW.YourSlidingWindowInferer) (inputs : SW.Tensor)
    (network : SW.Network) (sa : Int) (ex1 ex2 : List Int) :
    SW.call prim self inputs network sa ex1
      = SW.call prim self inputs network sa ex2 := rfl

/-- C4: the claimed check "`slice_axis` in 0, 1, 2, else `InvalidConfiguration`
at call time" is not what the code enforces: the assertion is only
`self.spatial_dim < 3`, with no lower bound, contradicting its own message
(`spatial_dim` can only be 0, 1, 2).  With `spatial_dim = -1` the call does not
raise `AssertionError` but silently delegates (Python `list.insert` with index
-1 places the 1 before the last ROI entry); with `spatial_dim = 3` the
assertion does fire, as the claim's particular case requires. -/
theorem C4_negative_spatial_dim_not_rejected :
    ((SW.call (fun _ _ _ x _ => .ok x) ⟨-1, [2, 2], 1, 0⟩ ⟨[1, 1, 3, 2, 2], []⟩
        (fun x _ => .ok x) 0 []).1 = .ok ⟨[1, 1, 3, 2, 2], []⟩
      ∧ (SW.call (fun _ _ _ x _ => .ok x) ⟨-1, [2, 2], 1, 0⟩ ⟨[1, 1, 3, 2, 2], []⟩
          (fun x _ => .ok x) 0 []).2.roi_size = [2, 1, 2])
    ∧ (SW.call (fun _ _ _ x _ => .ok x) ⟨3, [2, 2], 1, 0⟩ ⟨[1, 1, 3, 2, 2], []⟩
        (fun x _ => .ok x) 0 []).1 = .error .assertionError := by
  refine ⟨⟨?_, ?_⟩, ?_⟩ <;> rfl

/-- C1: for a stored rank-2 ROI size and a rank-3-spatial input, `__call__`
normalises the ROI to rank 3 with value 1 at position `spatial_dim` (the slice
axis) and the original two values at the remaining positions in order (erasing
position `spatial_dim` recovers the original ROI); when the stored ROI rank
already equals the input's spatial rank, the ROI size is unchanged. -/
theorem C1_roi_normalization (prim : SW.Primitive)
    (self : SW.YourSlidingWindowInferer) (inputs : SW.Tensor)
    (network : SW.Network) (sa : Int) (extra : List Int)
    (hs : self.spatial_dim = 0 ∨ self.spatial_dim = 1 ∨ self.spatial_dim = 2) :
    (self.roi_size.length = 2 → (inputs.shape.drop 2).length = 3 →
      ((SW.call prim self inputs network sa extra).2.roi_size.length = 3 ∧
        (SW.call prim self inputs network sa extra).2.roi_size.get?
          self.spatial_dim.toNat = some 1 ∧
        (SW.call prim self inputs network sa extra).2.roi_size.eraseIdx
          self.spatial_dim.toNat = self.roi_size)) ∧
    (self.roi_size.length = (inputs.shape.drop 2).length →
      (SW.call prim self inputs network sa extra).2.roi_size = self.roi_size) := by
  obtain ⟨sd, roi, bs, cv⟩ := self
  simp only at hs ⊢
  constructor
  · intro h2 h3
    obtain ⟨a, b, hab⟩ := List.length_eq_two.mp h2
    subst hab
    have hd : inputs.shape.length - 2 = 3 := by
      rw [← List.length_drop]; exact h3
    rcases hs with hs | hs | hs <;> subst hs <;>
      simp [SW.call, hd, SW.pyInsert, SW.listInsertIdx]
  · intro heq
    have hd : roi.length = inputs.shape.length - 2 := by
      rw [← List.length_drop]; exact heq
    rcases hs with hs | hs | hs <;> subst hs <;> simp [SW.call, hd]

/-- C5: when the stored ROI rank is neither 2 nor the input's spatial rank (and
the `spatial_dim` assertion passes), `__call__` raises `RuntimeError` (the
spec's `UnsupportedShape`) with the instance unchanged; the primitive `prim` is
universally quantified and absent from the result, so the external primitive is
never consulted. -/
theorem C5_unsupported_roi_rank (prim : SW.Primitive)
    (self : SW.YourSlidingWindowInferer) (inputs : SW.Tensor)
    (network : SW.Network) (sa : Int) (extra : List Int)
    (hdim : self.spatial_dim < 3)
    (h2 : self.roi_size.length ≠ 2)
    (hne : self.roi_size.length ≠ (inputs.shape.drop 2).length) :
    SW.call prim self inputs network sa extra
      = (.error .runtimeError, self) := by
  have hd : self.roi_size.length ≠ inputs.shape.length - 2 := by
    rw [← List.length_drop]; exact hne
  simp [SW.call, hdim, hd, h2]

/-- C6: the lazy 2D-to-3D normalisation is idempotent: on an instance built
with a rank-2 ROI and a valid slice axis, a second call with any
rank-3-spatial input leaves the cached normalised ROI exactly as the first
call produced it. -/
theorem C6_idempotent_roi_caching (prim : SW.Primitive)
    (self : SW.YourSlidingWindowInferer) (in1 in2 : SW.Tensor)
    (network : SW.Network) (sa : Int) (extra : List Int)
    (hs : self.spatial_dim = 0 ∨ self.spatial_dim = 1 ∨ self.spatial_dim = 2)
    (hroi : self.roi_size.length = 2)
    (h1 : (in1.shape.drop 2).length = 3)
    (h2 : (in2.shape.drop 2).length = 3) :
    (SW.call prim (SW.call prim self in1 network sa extra).2 in2 network sa
        extra).2.roi_size
      = (SW.call prim self in1 network sa extra).2.roi_size := by
  obtain ⟨sd, roi, bs, cv⟩ := self
  simp only at hs hroi
  have hd1 : in1.shape.length - 2 = 3 := by
    rw [← List.length_drop]; exact h1
  have hd2 : in2.shape.length - 2 = 3 := by
    rw [← List.length_drop]; exact h2
  have hlen3 : ∀ i : Int, (SW.pyInsert roi i 1).length = 3 := by
    intro i; rw [SW.pyInsert_length, hroi]
  rcases hs with hs | hs | hs <;> subst hs <;>
    simp [SW.call, hroi, hd1, hd2, hlen3]

/-- C7: `__call__` performs no retry and no local recovery: whenever it gets
past its own configuration checks it returns exactly the result of a single
invocation of the external primitive on some effective instance `eff` — an
error from the primitive is returned verbatim and no partial output can be
substituted — and the adapter handed to the primitive returns any error raised
by the model callable verbatim (both in the pass-through and in the
squeeze/unsqueeze branch). -/
theorem C7_error_propagation (prim : SW.Primitive)
    (self : SW.YourSlidingWindowInferer) (inputs : SW.Tensor)
    (network : SW.Network) (sa : Int) (extra : List Int)
    (hdim : self.spatial_dim < 3)
    (hok : self.roi_size.length = (inputs.shape.drop 2).length ∨
      self.roi_size.length = 2) :
    ∃ eff : SW.YourSlidingWindowInferer,
      (SW.call prim self inputs network sa extra).1
        = prim eff.roi_size eff.sw_batch_size eff.cval inputs
            (fun x => SW.network_wrapper eff network x []) ∧
      (∀ x v e, SW.pyGet eff.roi_size eff.spatial_dim = .ok v → v ≠ 1 →
        network x [] = .error e →
        SW.network_wrapper eff network x [] = .error e) ∧
      (∀ x x2 e, SW.pyGet eff.roi_size eff.spatial_dim = .ok 1 →
        x.squeeze (eff.spatial_dim + 2) = .ok x2 →
        network x2 [] = .error e →
        SW.network_wrapper eff network x [] = .error e) := by
  by_cases heq : self.roi_size.length = (inputs.shape.drop 2).length
  · refine ⟨self, ?_,
      (SW.network_wrapper_error_prop self network).1,
      (SW.network_wrapper_error_prop self network).2⟩
    have hd : self.roi_size.length = inputs.shape.length - 2 := by
      rw [← List.length_drop]; exact heq
    simp [SW.call, hdim, hd]
  · have h2 : self.roi_size.length = 2 := hok.resolve_left heq
    refine ⟨{ self with
        roi_size := SW.pyInsert self.roi_size self.spatial_dim 1 }, ?_,
      (SW.network_wrapper_error_prop _ network).1,
      (SW.network_wrapper_error_prop _ network).2⟩
    have hd : self.roi_size.length ≠ inputs.shape.length - 2 := by
      rw [← List.length_drop]; exact heq
    rw [h2] at hd
    simp [SW.call, hdim, hd, h2]

/-- C8: `__call__` is a pure state transformer: two calls on instances with
identical configuration and equal input volumes (with the same deterministic
model and primitive) return equal outputs and equal updated instances, and the
only instance field the call can change is the cached `roi_size` —
`spatial_dim`, `sw_batch_size` and `cval` are untouched, and the input volume
is only ever read (every tensor operation in the body builds a fresh
tensor). -/
theorem C8_deterministic_no_mutation (prim : SW.Primitive)
    (self1 self2 : SW.YourSlidingWindowInferer) (in1 in2 : SW.Tensor)
    (network : SW.Network) (sa : Int) (extra : List Int)
    (hself : self1 = self2) (hin : in1 = in2) :
    SW.call prim self1 in1 network sa extra
        = SW.call prim self2 in2 network sa extra ∧
    (SW.call prim self1 in1 network sa extra).2.spatial_dim
        = self1.spatial_dim ∧
    (SW.call prim self1 in1 network sa extra).2.sw_batch_size
        = self1.sw_batch_size ∧
    (SW.call prim self1 in1 network sa extra).2.cval = self1.cval := by
  subst hself
  subst hin
  refine ⟨rfl, ?_, ?_, ?_⟩ <;> unfold SW.call <;> (repeat' split) <;> rfl

/-- C2: for an input volume of shape (N, C, D, H, W), a 2D model (rank-2
stored ROI) and any valid slice axis, if the external sliding-window primitive
satisfies its contract — its successful output has the same rank, the same
batch extent and the same spatial extents as the volume it is given, with
channel extent equal to the model's output channel count `cout` — then a
successful `__call__` returns a volume of shape (N, cout, D, H, W). -/
theorem C2_output_shape (prim : SW.Primitive)
    (self : SW.YourSlidingWindowInferer) (inputs : SW.Tensor)
    (network : SW.Network) (sa : Int) (extra : List Int)
    (N C D H W cout : Nat) (out : SW.Tensor)
    (hs : self.spatial_dim = 0 ∨ self.spatial_dim = 1 ∨ self.spatial_dim = 2)
    (hroi : self.roi_size.length = 2)
    (hin : inputs.shape = [N, C, D, H, W])
    (hprim : ∀ roi bs cv (x : SW.Tensor) f (r : SW.Tensor),
      x.shape.length = 5 → prim roi bs cv x f = .ok r →
      r.shape.length = 5 ∧ r.shape.get? 0 = x.shape.get? 0 ∧
        r.shape.get? 1 = some cout ∧ r.shape.drop 2 = x.shape.drop 2)
    (hcall : (SW.call prim self inputs network sa extra).1 = .ok out) :
    out.shape = [N, cout, D, H, W] := by
  have hlen5 : inputs.shape.length = 5 := by rw [hin]; rfl
  have hdim : self.spatial_dim < 3 := by
    rcases hs with h | h | h <;> rw [h] <;> norm_num
  have hd : ¬ ((2 : Nat) = inputs.shape.length - 2) := by
    rw [hlen5]; decide
  simp [SW.call, hdim, hroi, hd] at hcall
  obtain ⟨hl5, hg0, hg1, hdrop⟩ := hprim _ _ _ _ _ _ hlen5 hcall
  obtain ⟨a, b, c, d, e, ho⟩ := SW.shape_eq_of_length_five hl5
  rw [ho] at hg0 hg1 hdrop ⊢
  rw [hin] at hg0 hdrop
  simp at hg0 hg1 hdrop
  rw [hg0, hg1, hdrop.1, hdrop.2.1, hdrop.2.2]

/-- C3: the model adapter `network_wrapper`: when the stored ROI has extent 1
at the slice axis, a tile (whose extent at spatial position `spatial_dim`,
i.e. tensor axis `spatial_dim + 2`, is 1) is squeezed at that axis — removing
exactly that axis while preserving the batch and channel axes — the model is
invoked on the result, and a size-1 axis is reinserted at the same position in
the model's output; when the ROI extent at the slice axis is not 1, the tile
is passed to the model unchanged. -/
theorem C3_adapter_squeeze_unsqueeze (self : SW.YourSlidingWindowInferer)
    (network : SW.Network) (x out : SW.Tensor) (extra : List Int) (v : Nat)
    (hs : self.spatial_dim = 0 ∨ self.spatial_dim = 1 ∨ self.spatial_dim = 2)
    (hx5 : x.shape.length = 5)
    (hv : SW.pyGet self.roi_size self.spatial_dim = .ok v) :
    (v = 1 → x.shape.get? (self.spatial_dim.toNat + 2) = some 1 →
      network ⟨x.shape.eraseIdx (self.spatial_dim.toNat + 2), x.data⟩ extra
          = .ok out →
      out.shape.length = 4 →
      (SW.network_wrapper self network x extra
          = .ok ⟨SW.listInsertIdx out.shape (self.spatial_dim.toNat + 2) 1,
              out.data⟩ ∧
        (x.shape.eraseIdx (self.spatial_dim.toNat + 2)).take 2
          = x.shape.take 2)) ∧
    (v ≠ 1 → SW.network_wrapper self network x extra = network x extra) := by
  obtain ⟨sd, roi, bs, cv⟩ := self
  obtain ⟨xs, xd⟩ := x
  simp only at hs hv hx5 ⊢
  constructor
  · intro h1 hget hnet hout4
    subst h1
    obtain ⟨A, B, c0, c1, c2, hsh⟩ := SW.shape_eq_of_length_five hx5
    subst hsh
    rcases hs with hs | hs | hs <;> subst hs <;>
      simp at hget hnet <;> subst hget <;>
      simp [SW.network_wrapper, SW.Tensor.squeeze, SW.Tensor.unsqueeze,
        hv, hnet, hout4]
  · intro hne
    simp [SW.network_wrapper, hv, hne]

/-- Witness for C1: ROI (7, 9) with slice axis 1 on a (1,1,3,4,5) volume
normalises to (7, 1, 9). -/
theorem C1_roi_normalization_witness :
    (((⟨1, [7, 9], 1, 0⟩ : SW.YourSlidingWindowInferer).spatial_dim = 0 ∨
      (⟨1, [7, 9], 1, 0⟩ : SW.YourSlidingWindowInferer).spatial_dim = 1 ∨
      (⟨1, [7, 9], 1, 0⟩ : SW.YourSlidingWindowInferer).spatial_dim = 2) ∧
      ([7, 9] : List Nat).length = 2 ∧
      ((SW.Tensor.mk [1, 1, 3, 4, 5] []).shape.drop 2).length = 3) ∧
    ((SW.call (fun _ _ _ x _ => .ok x) ⟨1, [7, 9], 1, 0⟩ ⟨[1, 1, 3, 4, 5], []⟩
        (fun x _ => .ok x) 0 []).2.roi_size.length = 3 ∧
      (SW.call (fun _ _ _ x _ => .ok x) ⟨1, [7, 9], 1, 0⟩ ⟨[1, 1, 3, 4, 5], []⟩
          (fun x _ => .ok x) 0 []).2.roi_size.get? 1 = some 1 ∧
      (SW.call (fun _ _ _ x _ => .ok x) ⟨1, [7, 9], 1, 0⟩ ⟨[1, 1, 3, 4, 5], []⟩
          (fun x _ => .ok x) 0 []).2.roi_size.eraseIdx 1 = [7, 9]) :=
  ⟨⟨Or.inr (Or.inl rfl), rfl, rfl⟩,
    (C1_roi_normalization (fun _ _ _ x _ => .ok x) ⟨1, [7, 9], 1, 0⟩
        ⟨[1, 1, 3, 4, 5], []⟩ (fun x _ => .ok x) 0 []
        (Or.inr (Or.inl rfl))).1 rfl rfl⟩

/-- Witness for C2: ROI (4, 5), slice axis 0, input (1,1,3,4,5), a primitive
meeting the shape contract with one output channel: the output shape is
(1,1,3,4,5). -/
theorem C2_output_shape_witness :
    (SW.call
        (fun _ _ _ x _ => .ok ⟨[x.shape.getD 0 0, 1, x.shape.getD 2 0,
            x.shape.getD 3 0, x.shape.getD 4 0], []⟩)
        ⟨0, [4, 5], 1, 0⟩ ⟨[1, 1, 3, 4, 5], []⟩ (fun x _ => .ok x) 0 []).1
      = .ok ⟨[1, 1, 3, 4, 5], []⟩ ∧
    (SW.Tensor.mk [1, 1, 3, 4, 5] []).shape = [1, 1, 3, 4, 5] :=
  ⟨rfl,
    C2_output_shape
      (fun _ _ _ x _ => .ok ⟨[x.shape.getD 0 0, 1, x.shape.getD 2 0,
          x.shape.getD 3 0, x.shape.getD 4 0], []⟩)
      ⟨0, [4, 5], 1, 0⟩ ⟨[1, 1, 3, 4, 5], []⟩ (fun x _ => .ok x) 0 []
      1 1 3 4 5 1 ⟨[1, 1, 3, 4, 5], []⟩
      (Or.inl rfl) rfl rfl
      (by
        intro roi bs cv x f r hx5 hr
        obtain ⟨a, b, c, d, e, hsh⟩ := SW.shape_eq_of_length_five hx5
        obtain ⟨xs, xd⟩ := x
        simp only at hsh
        subst hsh
        cases hr
        simp)
      rfl⟩

/-- Witness for C3: normalised ROI (1, 4, 5), slice axis 0, a (1,1,1,4,5)
tile and the identity model: the adapter squeezes to (1,1,4,5), applies the
model, and unsqueezes back to (1,1,1,4,5). -/
theorem C3_adapter_witness :
    SW.network_wrapper ⟨0, [1, 4, 5], 1, 0⟩ (fun x _ => .ok ⟨x.shape, x.data⟩)
        ⟨[1, 1, 1, 4, 5], []⟩ []
      = .ok ⟨[1, 1, 1, 4, 5], []⟩ ∧
    (([1, 1, 1, 4, 5] : List Nat).eraseIdx 2).take 2
      = ([1, 1, 1, 4, 5] : List Nat).take 2 :=
  (C3_adapter_squeeze_unsqueeze ⟨0, [1, 4, 5], 1, 0⟩
      (fun x _ => .ok ⟨x.shape, x.data⟩) ⟨[1, 1, 1, 4, 5], []⟩
      ⟨[1, 1, 4, 5], []⟩ [] 1 (Or.inl rfl) rfl rfl).1 rfl rfl rfl rfl

/-- Witness for C5: ROI rank 4 against a rank-3-spatial input raises
`RuntimeError` with the instance unchanged. -/
theorem C5_unsupported_roi_rank_witness :
    (((⟨1, [4, 4, 4, 4], 1, 0⟩ : SW.YourSlidingWindowInferer).spatial_dim < 3) ∧
      ([4, 4, 4, 4] : List Nat).length ≠ 2 ∧
      ([4, 4, 4, 4] : List Nat).length
        ≠ ((SW.Tensor.mk [1, 1, 3, 4, 5] []).shape.drop 2).length) ∧
    SW.call (fun _ _ _ x _ => .ok x) ⟨1, [4, 4, 4, 4], 1, 0⟩
        ⟨[1, 1, 3, 4, 5], []⟩ (fun x _ => .ok x) 0 []
      = (.error .runtimeError, ⟨1, [4, 4, 4, 4], 1, 0⟩) :=
  ⟨⟨by decide, by decide, by decide⟩,
    C5_unsupported_roi_rank (fun _ _ _ x _ => .ok x) ⟨1, [4, 4, 4, 4], 1, 0⟩
      ⟨[1, 1, 3, 4, 5], []⟩ (fun x _ => .ok x) 0 []
      (by decide) (by decide) (by decide)⟩

/-- Witness for C6: after a first call normalises ROI (7, 9) to (1, 7, 9), a
second call with a different volume leaves the cached ROI unchanged. -/
theorem C6_idempotent_roi_caching_witness :
    (SW.call (fun _ _ _ x _ => .ok x)
        (SW.call (fun _ _ _ x _ => .ok x) ⟨0, [7, 9], 1, 0⟩
            ⟨[1, 1, 3, 4, 5], []⟩ (fun x _ => .ok x) 0 []).2
        ⟨[1, 1, 6, 7, 8], []⟩ (fun x _ => .ok x) 0 []).2.roi_size
      = (SW.call (fun _ _ _ x _ => .ok x) ⟨0, [7, 9], 1, 0⟩
          ⟨[1, 1, 3, 4, 5], []⟩ (fun x _ => .ok x) 0 []).2.roi_size :=
  C6_idempotent_roi_caching (fun _ _ _ x _ => .ok x) ⟨0, [7, 9], 1, 0⟩
    ⟨[1, 1, 3, 4, 5], []⟩ ⟨[1, 1, 6, 7, 8], []⟩ (fun x _ => .ok x) 0 []
    (Or.inl rfl) rfl rfl rfl

/-- Witness for C7: with a primitive that invokes the adapter once and a model
that always raises a distinguished error, the call surfaces exactly one
primitive invocation's result, and the adapter propagates the model's error. -/
theorem C7_error_propagation_witness :
    ∃ eff : SW.YourSlidingWindowInferer,
      (SW.call SW.propPrim ⟨0, [2, 2], 1, 0⟩ ⟨[1, 1, 3, 2, 2], []⟩
          SW.failNet 0 []).1
        = SW.propPrim eff.roi_size eff.sw_batch_size eff.cval
            ⟨[1, 1, 3, 2, 2], []⟩
            (fun x => SW.network_wrapper eff SW.failNet x []) ∧
      (∀ x v e, SW.pyGet eff.roi_size eff.spatial_dim = .ok v → v ≠ 1 →
        SW.failNet x [] = .error e →
        SW.network_wrapper eff SW.failNet x [] = .error e) ∧
      (∀ x x2 e, SW.pyGet eff.roi_size eff.spatial_dim = .ok 1 →
        x.squeeze (eff.spatial_dim + 2) = .ok x2 →
        SW.failNet x2 [] = .error e →
        SW.network_wrapper eff SW.failNet x [] = .error e) :=
  C7_error_propagation SW.propPrim ⟨0, [2, 2], 1, 0⟩ ⟨[1, 1, 3, 2, 2], []⟩
    SW.failNet 0 [] (by decide) (Or.inr (by decide))

/-- Witness for C8 at a concrete configuration and volume. -/
theorem C8_deterministic_no_mutation_witness :
    ((⟨0, [7, 9], 1, 0⟩ : SW.YourSlidingWindowInferer) = ⟨0, [7, 9], 1, 0⟩ ∧
      (SW.Tensor.mk [1, 1, 3, 4, 5] []) = ⟨[1, 1, 3, 4, 5], []⟩) ∧
    (SW.call (fun _ _ _ x _ => .ok x) ⟨0, [7, 9], 1, 0⟩ ⟨[1, 1, 3, 4, 5], []⟩
          (fun x _ => .ok x) 0 []
        = SW.call (fun _ _ _ x _ => .ok x) ⟨0, [7, 9], 1, 0⟩
            ⟨[1, 1, 3, 4, 5], []⟩ (fun x _ => .ok x) 0 [] ∧
      (SW.call (fun _ _ _ x _ => .ok x) ⟨0, [7, 9], 1, 0⟩ ⟨[1, 1, 3, 4, 5], []⟩
          (fun x _ => .ok x) 0 []).2.spatial_dim = 0 ∧
      (SW.call (fun _ _ _ x _ => .ok x) ⟨0, [7, 9], 1, 0⟩ ⟨[1, 1, 3, 4, 5], []⟩
          (fun x _ => .ok x) 0 []).2.sw_batch_size = 1 ∧
      (SW.call (fun _ _ _ x _ => .ok x) ⟨0, [7, 9], 1, 0⟩ ⟨[1, 1, 3, 4, 5], []⟩
          (fun x _ => .ok x) 0 []).2.cval = 0) :=
  ⟨⟨rfl, rfl⟩,
    C8_deterministic_no_mutation (fun _ _ _ x _ => .ok x) ⟨0, [7, 9], 1, 0⟩
      ⟨0, [7, 9], 1, 0⟩ ⟨[1, 1, 3, 4, 5], []⟩ ⟨[1, 1, 3, 4, 5], []⟩
      (fun x _ => .ok x) 0 [] rfl rfl⟩

section Sanity

example :
    SW.pyInsert [256, 256] 0 1 = [1, 256, 256] := by decide

example :
    SW.pyInsert [256, 256] 1 1 = [256, 1, 256] := by decide

example :
    SW.pyInsert [256, 256] 2 1 = [256, 256, 1] := by decide

example :
    SW.pyInsert [256, 256] (-1) 1 = [256, 1, 256] := by decide

end Sanity
